import Mathlib

/-!
Verification of the DMX color pipeline (generate_dmx_table.py).

The five pipeline components are embedded as Lean functions over exact
arithmetic: DMX channel values are naturals (validated from integers), and
the script's real-valued intermediate quantities are rationals, except for
the final Cartesian color-wheel coordinates, which use `Real.cos`/`Real.sin`.
Python's `int()` on the nonnegative quantities appearing here agrees with
the floor function, and `x % y` on reals with positive `y` is
`x - y * ⌊x / y⌋`.
-/

namespace DMXColors

/-- Python's float modulo `x % y` for positive `y`: `x - y * ⌊x / y⌋`. -/
def fmodQ (x y : ℚ) : ℚ := x - y * ⌊x / y⌋

/-- Division guarded against a zero denominator, used to check that the
pipeline only divides under explicit nonzero guards. -/
def guardedDiv (x y : ℚ) : Option ℚ := if y = 0 then none else some (x / y)

/-- The arithmetic core of `to_srgb` (lines 34-56): project a validated
RGBWA quintuple to an approximate RGB color.  `int()` truncation on these
nonnegative values is the floor. -/
def project (r g b w a : ℕ) : ℕ × ℕ × ℕ :=
  let w_scale : ℚ := 0.5
  let a_scale : ℚ := 0.5
  let rr : ℚ := (r : ℚ) + (w : ℚ) * w_scale + (a : ℚ) * a_scale
  let gg : ℚ := (g : ℚ) + (w : ℚ) * w_scale + (a : ℚ) * 0.75 * a_scale
  let bb : ℚ := (b : ℚ) + (w : ℚ) * w_scale
  let rr2 : ℚ := min rr 255
  let gg2 : ℚ := min gg 255
  let bb2 : ℚ := min bb 255
  (⌊rr2⌋.toNat, ⌊gg2⌋.toNat, ⌊bb2⌋.toNat)

/-- `to_srgb` (lines 29-56): validate the five channel values, failing with
the first value outside [0,255], then project to an approximate color. -/
def to_srgb (r g b w a : ℤ) : Except ℤ (ℕ × ℕ × ℕ) :=
  match [r, g, b, w, a].find? (fun v => decide (¬(0 ≤ v ∧ v ≤ 255))) with
  | some v => Except.error v
  | none => Except.ok (project r.toNat g.toNat b.toNat w.toNat a.toNat)

/-- Projector as the C2 claim words it: each channel is
`floor (min (base + scaled contributions) 255)` with scales 0.5, 0.375. -/
def projector_claim (r g b w a : ℕ) : ℕ × ℕ × ℕ :=
  (⌊min ((r : ℚ) + 0.5 * (w : ℚ) + 0.5 * (a : ℚ)) 255⌋.toNat,
   ⌊min ((g : ℚ) + 0.5 * (w : ℚ) + 0.375 * (a : ℚ)) 255⌋.toNat,
   ⌊min ((b : ℚ) + 0.5 * (w : ℚ)) 255⌋.toNat)

/-- `perceived_brightness` (lines 58-75): luma quantized to the four DMX
steps with thresholds 42, 127, 212. -/
def perceived_brightness (r g b : ℕ) : ℕ :=
  let raw_brightness : ℚ := 0.299 * (r : ℚ) + 0.587 * (g : ℚ) + 0.114 * (b : ℚ)
  if raw_brightness < 42 then 0
  else if raw_brightness < 127 then 85
  else if raw_brightness < 212 then 170
  else 255

/-- The raw luma 0.299 r + 0.587 g + 0.114 b as a rational. -/
def lumaQ (r g b : ℕ) : ℚ := 0.299 * (r : ℚ) + 0.587 * (g : ℚ) + 0.114 * (b : ℚ)

/-- The step function of luma described by claim C3: boundaries exactly at
42, 127 and 212. -/
def brightness_step_claim (raw : ℚ) : ℕ :=
  if raw < 42 then 0
  else if raw < 127 then 85
  else if raw < 212 then 170
  else 255

/-- Helper: each projected channel is at most 255. -/
theorem floor_min_toNat_le (x : ℚ) : ⌊min x 255⌋.toNat ≤ 255 := by
  have h : ⌊min x 255⌋ ≤ (255 : ℤ) :=
    le_trans (Int.floor_le_floor (min_le_right x 255)) (by norm_num)
  exact Int.toNat_le.mpr h

/-- Claim C2: for every quintuple of channel values, the projector returns
exactly the floor of each clamped channel combination (red gets
r + 0.5 w + 0.5 a, green gets g + 0.5 w + 0.375 a, blue gets b + 0.5 w,
each clamped to 255 and truncated), so each output channel is an integer in
[0,255]; in particular (0,0,0,0,0) maps to (0,0,0) and (255,255,255,0,0)
maps to (255,255,255). -/
theorem claim_C2_projector_formula :
    (∀ r g b w a : ℕ, project r g b w a = projector_claim r g b w a ∧
      (project r g b w a).1 ≤ 255 ∧ (project r g b w a).2.1 ≤ 255 ∧
      (project r g b w a).2.2 ≤ 255) ∧
    project 0 0 0 0 0 = (0, 0, 0) ∧ project 255 255 255 0 0 = (255, 255, 255) := by
  refine ⟨fun r g b w a => ⟨?_, ?_, ?_, ?_⟩, ?_, ?_⟩
  · simp only [project, projector_claim]
    rw [show (r : ℚ) + (w : ℚ) * 0.5 + (a : ℚ) * 0.5
          = (r : ℚ) + 0.5 * (w : ℚ) + 0.5 * (a : ℚ) by ring,
        show (g : ℚ) + (w : ℚ) * 0.5 + (a : ℚ) * 0.75 * 0.5
          = (g : ℚ) + 0.5 * (w : ℚ) + 0.375 * (a : ℚ) by ring,
        show (b : ℚ) + (w : ℚ) * 0.5 = (b : ℚ) + 0.5 * (w : ℚ) by ring]
  · exact floor_min_toNat_le _
  · exact floor_min_toNat_le _
  · exact floor_min_toNat_le _
  · simp only [project]
    norm_num
  · simp only [project]
    norm_num
    rfl

/-- Claim C3: the brightness quantizer is exactly the step function of the
raw luma with boundaries at 42, 127, 212; a luma of 41 lands in the 0
bucket and a luma of 42 in the 85 bucket, and the all-black/all-white
colors map to 0 and 255. -/
theorem claim_C3_quantizer_step :
    (∀ r g b : ℕ, perceived_brightness r g b = brightness_step_claim (lumaQ r g b)) ∧
    lumaQ 0 58 61 = 41 ∧ perceived_brightness 0 58 61 = 0 ∧
    lumaQ 2 28 219 = 42 ∧ perceived_brightness 2 28 219 = 85 ∧
    perceived_brightness 0 0 0 = 0 ∧ perceived_brightness 255 255 255 = 255 := by
  refine ⟨fun r g b => rfl, by norm_num [lumaQ], ?_, by norm_num [lumaQ], ?_, ?_, ?_⟩
  · norm_num [perceived_brightness]
  · norm_num [perceived_brightness]
  · norm_num [perceived_brightness]
  · norm_num [perceived_brightness]

/-- Lines 97-142 of `get_color_group`: the dominant-channel cascade that
picks the base family label and warm/cool/neutral category for chromatic
colors. -/
def dominant_cascade (r g b : ℕ) : String × String :=
  if r > g ∧ r > b then
    if (g : ℚ) > (b : ℚ) * 1.5 then
      if (g : ℚ) > (r : ℚ) * 0.7 then ("orange", "warm") else ("red-orange", "warm")
    else
      if (b : ℚ) > (r : ℚ) * 0.7 then ("magenta", "cool")
      else ("red", "warm")
  else if g > r ∧ g > b then
    if (r : ℚ) > (b : ℚ) * 1.5 then ("yellow-green", "warm")
    else
      if (b : ℚ) > (g : ℚ) * 0.7 then ("teal", "cool")
      else ("green", "cool")
  else if b > r ∧ b > g then
    if (r : ℚ) > (g : ℚ) * 1.5 then ("purple", "cool")
    else
      if (g : ℚ) > (b : ℚ) * 0.7 then ("cyan", "cool")
      else ("blue", "cool")
  else if r = g ∧ r > b then ("yellow", "warm")
  else if r = b ∧ r > g then ("magenta", "cool")
  else if g = b ∧ g > r then ("cyan", "cool")
  else ("mixed", "neutral")

/-- The label and category `get_color_group` chooses before its modifier
block: the early black/near-grayscale returns (lines 86-95) and otherwise
the dominant-channel cascade. -/
def classifier_base (r g b : ℕ) : String × String :=
  let max_val := max r (max g b)
  let min_val := min r (min g b)
  if max_val = 0 then ("black", "neutral")
  else if max_val - min_val < 30 then
    if max_val < 85 then ("dark gray", "neutral")
    else if max_val < 170 then ("gray", "neutral")
    else ("white", "neutral")
  else dominant_cascade r g b

/-- `get_color_group` (lines 77-152).  The black and near-grayscale
branches return early; only the dominant-channel path reaches the
"pastel "/"deep " modifier block, whose deep check tests the
possibly-pastel-prefixed current label against "black". -/
def get_color_group (r g b : ℕ) : String × String :=
  let max_val := max r (max g b)
  let min_val := min r (min g b)
  if max_val = 0 then ("black", "neutral")
  else if max_val - min_val < 30 then
    if max_val < 85 then ("dark gray", "neutral")
    else if max_val < 170 then ("gray", "neutral")
    else ("white", "neutral")
  else
    let mc := dominant_cascade r g b
    let m1 := if min_val > 170 then ("pastel " ++ mc.1) else mc.1
    let m2 := if max_val < 170 ∧ m1 ≠ "black" then ("deep " ++ m1) else m1
    (m2, mc.2)

/-- Spec section 4.4 steps 1-3, as the C1 claim words them: first-match
decision order black / near-grayscale / strictly-dominant channel / ties,
with thresholds 30, 85, 170, 1.5 and 0.7. -/
def classifier_spec_base (r g b : ℕ) : String × String :=
  let max_val := max r (max g b)
  let min_val := min r (min g b)
  if max_val = 0 then ("black", "neutral")
  else if max_val - min_val < 30 then
    if max_val < 85 then ("dark gray", "neutral")
    else if max_val < 170 then ("gray", "neutral")
    else ("white", "neutral")
  else
    if r > g ∧ r > b then
      if (g : ℚ) > (b : ℚ) * 1.5 then
        if (g : ℚ) > (r : ℚ) * 0.7 then ("orange", "warm") else ("red-orange", "warm")
      else
        if (b : ℚ) > (r : ℚ) * 0.7 then ("magenta", "cool")
        else ("red", "warm")
    else if g > r ∧ g > b then
      if (r : ℚ) > (b : ℚ) * 1.5 then ("yellow-green", "warm")
      else
        if (b : ℚ) > (g : ℚ) * 0.7 then ("teal", "cool")
        else ("green", "cool")
    else if b > r ∧ b > g then
      if (r : ℚ) > (g : ℚ) * 1.5 then ("purple", "cool")
      else
        if (g : ℚ) > (b : ℚ) * 0.7 then ("cyan", "cool")
        else ("blue", "cool")
    else if r = g ∧ r > b then ("yellow", "warm")
    else if r = b ∧ r > g then ("magenta", "cool")
    else if g = b ∧ g > r then ("cyan", "cool")
    else ("mixed", "neutral")

/-- The modifier step as claim C4 words it: applied to the chosen base
label, pastel when min > 170, deep when max < 170 and the base label is
not "black", the two checks independent of which base label was chosen. -/
def apply_modifiers_claim (r g b : ℕ) (lc : String × String) : String × String :=
  let max_val := max r (max g b)
  let min_val := min r (min g b)
  let m1 := if min_val > 170 then ("pastel " ++ lc.1) else lc.1
  let m2 := if max_val < 170 ∧ lc.1 ≠ "black" then ("deep " ++ m1) else m1
  (m2, lc.2)

/-- Claim C1: the base label and category (before any modifier) follow the
first-match decision order of spec section 4.4 steps 1-3 with the exact
thresholds 30, 85, 170, 1.5 and 0.7, and in particular black, white, red
and blue come out as stated. -/
theorem claim_C1_classifier_base :
    (∀ r g b : ℕ, classifier_base r g b = classifier_spec_base r g b) ∧
    classifier_base 0 0 0 = ("black", "neutral") ∧
    classifier_base 200 200 200 = ("white", "neutral") ∧
    classifier_base 255 0 0 = ("red", "warm") ∧
    classifier_base 0 0 255 = ("blue", "cool") := by
  refine ⟨fun r g b => rfl, rfl, rfl, ?_, ?_⟩
  · simp only [classifier_base, dominant_cascade]
    norm_num
  · simp only [classifier_base, dominant_cascade]
    norm_num

/-- Counterexample to claim C4: at (200,200,200) the pastel condition
min > 170 holds, yet the classifier returns plain "white": the
near-grayscale branch returns before the modifier block runs, so the
modifiers are not applied "whatever the base label is". -/
theorem claim_C4_counterexample :
    min 200 (min 200 200) > 170 ∧
    get_color_group 200 200 200 = ("white", "neutral") ∧
    apply_modifiers_claim 200 200 200 (classifier_base 200 200 200)
      = ("pastel white", "neutral") ∧
    get_color_group 200 200 200 ≠
      apply_modifiers_claim 200 200 200 (classifier_base 200 200 200) := by
  refine ⟨by decide, rfl, rfl, by decide⟩

/-- Claim C4 as amended: the two modifier checks are applied independently,
exactly as the claim describes them, for every color that reaches the
dominant-channel branch (max > 0 and max - min >= 30); the achromatic
early returns bypass the modifier block. -/
theorem claim_C4_amended_modifiers (r g b : ℕ) (h0 : max r (max g b) ≠ 0)
    (h30 : ¬(max r (max g b) - min r (min g b) < 30)) :
    get_color_group r g b = apply_modifiers_claim r g b (classifier_base r g b) := by
  have hmm : min r (min g b) ≤ max r (max g b) := by omega
  simp only [get_color_group, classifier_base, apply_modifiers_claim,
    if_neg h0, if_neg h30]
  by_cases hp : min r (min g b) > 170
  · have hd : ¬(max r (max g b) < 170) := by omega
    simp [hp, hd]
  · simp [hp]

/-- Witness for the amended C4 at the chromatic input (255,0,0). -/
theorem claim_C4_amended_witness :
    max 255 (max 0 0) ≠ 0 ∧ ¬(max 255 (max 0 0) - min 255 (min 0 0) < 30) ∧
    get_color_group 255 0 0 = apply_modifiers_claim 255 0 0 (classifier_base 255 0 0) :=
  ⟨by decide, by decide, claim_C4_amended_modifiers 255 0 0 (by decide) (by decide)⟩

/-- Claim C10: colors classified by the achromatic branches come back with
their label unmodified (so (200,200,200) is "white", not "pastel white"),
a modified label occurs only when max - min >= 30, and a returned label
never carries both the pastel and the deep marker: it is the base label
with at most one of the two put in front. -/
theorem claim_C10_achromatic_unmodified :
    (∀ r g b : ℕ,
      (max r (max g b) = 0 → get_color_group r g b = ("black", "neutral")) ∧
      (max r (max g b) - min r (min g b) < 30 →
        get_color_group r g b = classifier_base r g b ∧
        (get_color_group r g b).1 ∈ (["black", "dark gray", "gray", "white"] : List String)) ∧
      ((get_color_group r g b).1 = (classifier_base r g b).1 ∨
       (get_color_group r g b).1 = "pastel " ++ (classifier_base r g b).1 ∨
       (get_color_group r g b).1 = "deep " ++ (classifier_base r g b).1)) ∧
    get_color_group 200 200 200 = ("white", "neutral") := by
  refine ⟨fun r g b => ⟨?_, ?_, ?_⟩, rfl⟩
  · intro h0
    simp only [get_color_group]
    rw [if_pos h0]
  · intro h30
    by_cases h0 : max r (max g b) = 0
    · constructor
      · simp only [get_color_group, classifier_base]
        rw [if_pos h0, if_pos h0]
      · simp only [get_color_group]
        rw [if_pos h0]
        simp
    · constructor
      · simp only [get_color_group, classifier_base]
        rw [if_neg h0, if_neg h0, if_pos h30, if_pos h30]
      · simp only [get_color_group]
        rw [if_neg h0, if_pos h30]
        split_ifs <;> simp
  · by_cases h0 : max r (max g b) = 0
    · left
      simp only [get_color_group, classifier_base]
      rw [if_pos h0, if_pos h0]
    · by_cases h30 : max r (max g b) - min r (min g b) < 30
      · left
        simp only [get_color_group, classifier_base]
        rw [if_neg h0, if_neg h0, if_pos h30, if_pos h30]
      · have hmm : min r (min g b) ≤ max r (max g b) := by omega
        simp only [get_color_group, classifier_base, if_neg h0, if_neg h30]
        by_cases hp : min r (min g b) > 170
        · have hd : ¬(max r (max g b) < 170) := by omega
          right; left
          simp [hp, hd]
        · by_cases hdc : max r (max g b) < 170 ∧ (dominant_cascade r g b).1 ≠ "black"
          · right; right
            simp [hp, hdc]
          · left
            simp only [if_neg hp, if_neg hdc]

/-- Witness for C10's near-grayscale conjunct at (200,200,200). -/
theorem claim_C10_witness :
    (max 200 (max 200 200) - min 200 (min 200 200) < 30) ∧
    (get_color_group 200 200 200 = classifier_base 200 200 200 ∧
      (get_color_group 200 200 200).1 ∈ (["black", "dark gray", "gray", "white"] : List String)) :=
  ⟨by decide, ((claim_C10_achromatic_unmodified.1 200 200 200).2.1 (by decide))⟩

/-- Lines 222-238 of `calculate_color_temperature`: the first-match
decision list over the normalized channels and the two ratios. -/
def temp_decision (rp gp bp rbr brr : ℚ) : String :=
  if rbr > 3 then ("very-warm")
  else if rbr > 1.5 then ("warm")
  else if brr > 3 then ("very-cool")
  else if brr > 1.5 then ("cool")
  else if gp > max rp bp * 1.5 then ("cool")
  else if |rp - bp| < 0.1 ∧ rp > 0.7 ∧ gp > 0.7 then ("neutral")
  else if |rp - bp| < 0.2 then ("neutral")
  else if rp > bp then ("warm") else ("cool")

/-- `calculate_color_temperature` (lines 193-238): normalize to [0,1],
return neutral for near-black, otherwise build the r/b and b/r ratios
(with the 10/0 guard when a channel is zero) and run the decision list. -/
def calculate_color_temperature (r g b : ℕ) : String :=
  let rp : ℚ := (r : ℚ) / 255
  let gp : ℚ := (g : ℚ) / 255
  let bp : ℚ := (b : ℚ) / 255
  if max rp (max gp bp) < 0.1 then ("neutral")
  else
    let ratios : ℚ × ℚ :=
      if rp > 0 ∧ bp > 0 then (rp / bp, bp / rp)
      else (if rp > 0 then 10 else 0, if bp > 0 then 10 else 0)
    temp_decision rp gp bp ratios.1 ratios.2

/-- The temperature classifier as claim C6 words it: for max < 0.1 neutral,
otherwise the exact first-match order over rb_ratio and br_ratio (the
quotients when both r > 0 and b > 0, else the 10/0 guard values). -/
def calc_temp_claim (r g b : ℕ) : String :=
  let rp : ℚ := (r : ℚ) / 255
  let gp : ℚ := (g : ℚ) / 255
  let bp : ℚ := (b : ℚ) / 255
  if max rp (max gp bp) < 0.1 then ("neutral")
  else
    let rbr : ℚ := if rp > 0 ∧ bp > 0 then rp / bp else if rp > 0 then 10 else 0
    let brr : ℚ := if rp > 0 ∧ bp > 0 then bp / rp else if bp > 0 then 10 else 0
    if rbr > 3 then ("very-warm")
    else if rbr > 1.5 then ("warm")
    else if brr > 3 then ("very-cool")
    else if brr > 1.5 then ("cool")
    else if gp > max rp bp * 1.5 then ("cool")
    else if |rp - bp| < 0.1 ∧ rp > 0.7 ∧ gp > 0.7 then ("neutral")
    else if |rp - bp| < 0.2 then ("neutral")
    else if rp > bp then ("warm") else ("cool")

/-- Claim C6: the temperature classifier decides by the exact first-match
order of the claim, with the 10/0 division guards, and in particular pure
red is very-warm, pure blue very-cool, and light gray neutral. -/
theorem claim_C6_temperature :
    (∀ r g b : ℕ, calculate_color_temperature r g b = calc_temp_claim r g b) ∧
    calculate_color_temperature 255 0 0 = ("very-warm") ∧
    calculate_color_temperature 0 0 255 = ("very-cool") ∧
    calculate_color_temperature 200 200 200 = ("neutral") := by
  refine ⟨fun r g b => ?_, ?_, ?_, ?_⟩
  · simp only [calculate_color_temperature, calc_temp_claim, temp_decision]
    by_cases hc : 0 < r ∧ 0 < b
    · simp [hc]
    · simp [hc]
  · norm_num [calculate_color_temperature, temp_decision]
  · norm_num [calculate_color_temperature, temp_decision]
  · norm_num [calculate_color_temperature, temp_decision]

/-- Claim C7: `to_srgb` fails with a range error exactly when one of the
five values is outside [0,255], the reported value is one of the five and
is itself out of range, and -1 and 256 are rejected at each of the five
positions. -/
theorem claim_C7_validator :
    (∀ r g b w a : ℤ,
      ((∃ p, to_srgb r g b w a = Except.ok p) ↔
        (0 ≤ r ∧ r ≤ 255) ∧ (0 ≤ g ∧ g ≤ 255) ∧ (0 ≤ b ∧ b ≤ 255) ∧
        (0 ≤ w ∧ w ≤ 255) ∧ (0 ≤ a ∧ a ≤ 255)) ∧
      (∀ v, to_srgb r g b w a = Except.error v →
        (v = r ∨ v = g ∨ v = b ∨ v = w ∨ v = a) ∧ ¬(0 ≤ v ∧ v ≤ 255))) ∧
    to_srgb (-1) 0 0 0 0 = Except.error (-1) ∧
    to_srgb 256 0 0 0 0 = Except.error 256 ∧
    to_srgb 0 (-1) 0 0 0 = Except.error (-1) ∧
    to_srgb 0 256 0 0 0 = Except.error 256 ∧
    to_srgb 0 0 (-1) 0 0 = Except.error (-1) ∧
    to_srgb 0 0 256 0 0 = Except.error 256 ∧
    to_srgb 0 0 0 (-1) 0 = Except.error (-1) ∧
    to_srgb 0 0 0 256 0 = Except.error 256 ∧
    to_srgb 0 0 0 0 (-1) = Except.error (-1) ∧
    to_srgb 0 0 0 0 256 = Except.error 256 := by
  refine ⟨fun r g b w a => ⟨?_, ?_⟩,
    rfl, rfl, rfl, rfl, rfl, rfl, rfl, rfl, rfl, rfl⟩
  · constructor
    · rintro ⟨p, hp⟩
      cases h : [r, g, b, w, a].find? (fun v => decide (¬(0 ≤ v ∧ v ≤ 255))) with
      | some v =>
        simp only [to_srgb, h] at hp
        exact Except.noConfusion hp
      | none =>
        have hall := List.find?_eq_none.mp h
        have hr := hall r (by simp)
        have hg := hall g (by simp)
        have hb := hall b (by simp)
        have hw := hall w (by simp)
        have ha := hall a (by simp)
        simp only [decide_eq_true_eq, not_not] at hr hg hb hw ha
        exact ⟨hr, hg, hb, hw, ha⟩
    · intro hall
      have hnone : [r, g, b, w, a].find? (fun v => decide (¬(0 ≤ v ∧ v ≤ 255))) = none := by
        refine List.find?_eq_none.mpr ?_
        intro x hx
        simp only [List.mem_cons, List.not_mem_nil, or_false] at hx
        rcases hx with rfl | rfl | rfl | rfl | rfl <;>
          simp [hall.1, hall.2.1, hall.2.2.1, hall.2.2.2.1, hall.2.2.2.2]
      refine ⟨project r.toNat g.toNat b.toNat w.toNat a.toNat, ?_⟩
      simp only [to_srgb, hnone]
  · intro v hv
    cases h : [r, g, b, w, a].find? (fun v => decide (¬(0 ≤ v ∧ v ≤ 255))) with
    | none =>
      simp only [to_srgb, h] at hv
      exact Except.noConfusion hv
    | some u =>
      simp only [to_srgb, h, Except.error.injEq] at hv
      subst hv
      have hmem := List.mem_of_find?_eq_some h
      have hpred := List.find?_some h
      simp only [decide_eq_true_eq] at hpred
      simp only [List.mem_cons, List.not_mem_nil, or_false] at hmem
      exact ⟨hmem, hpred⟩

/-- Witness for C7's error conjunct: the reported value -1 at the red
position is one of the inputs and is out of range. -/
theorem claim_C7_witness :
    ((-1 : ℤ) = -1 ∨ (-1 : ℤ) = 0 ∨ (-1 : ℤ) = 0 ∨ (-1 : ℤ) = 0 ∨ (-1 : ℤ) = 0) ∧
    ¬((0 : ℤ) ≤ -1 ∧ (-1 : ℤ) ≤ 255) :=
  (claim_C7_validator.1 (-1) 0 0 0 0).2 (-1) rfl

/-- Lines 160-183 of `get_color_wheel_position`: normalize, compute hue in
degrees by the HSV formula (the red branch taken modulo 6 before scaling by
60) and saturation delta/max. -/
def hue_sat (r g b : ℕ) : ℚ × ℚ :=
  let rp : ℚ := (r : ℚ) / 255
  let gp : ℚ := (g : ℚ) / 255
  let bp : ℚ := (b : ℚ) / 255
  let max_val := max rp (max gp bp)
  let min_val := min rp (min gp bp)
  let delta := max_val - min_val
  let hue : ℚ :=
    if delta = 0 then 0
    else if max_val = rp then 60 * fmodQ ((gp - bp) / delta) 6
    else if max_val = gp then 60 * ((bp - rp) / delta + 2)
    else 60 * ((rp - gp) / delta + 4)
  let saturation : ℚ := if max_val = 0 then 0 else delta / max_val
  (hue, saturation)

/-- Pair two optional values, failing when either is missing. -/
def pairOpt {α β : Type} : Option α → Option β → Option (α × β)
  | some a, some b => some (a, b)
  | _, _ => none

/-- `hue_sat` with every division from the source replaced by a
zero-checked division, to show that no division site can be reached with a
zero denominator. -/
def hue_sat_checked (r g b : ℕ) : Option (ℚ × ℚ) :=
  let rp : ℚ := (r : ℚ) / 255
  let gp : ℚ := (g : ℚ) / 255
  let bp : ℚ := (b : ℚ) / 255
  let max_val := max rp (max gp bp)
  let min_val := min rp (min gp bp)
  let delta := max_val - min_val
  let hueOpt : Option ℚ :=
    if delta = 0 then some 0
    else if max_val = rp then (guardedDiv (gp - bp) delta).map (fun q => 60 * fmodQ q 6)
    else if max_val = gp then (guardedDiv (bp - rp) delta).map (fun q => 60 * (q + 2))
    else (guardedDiv (rp - gp) delta).map (fun q => 60 * (q + 4))
  let satOpt : Option ℚ := if max_val = 0 then some 0 else guardedDiv delta max_val
  pairOpt hueOpt satOpt

/-- `get_color_wheel_position` (lines 154-191): black maps to the center,
otherwise Cartesian coordinates from hue (as an angle in radians) and
saturation (as the radius). -/
noncomputable def get_color_wheel_position (r g b : ℕ) : ℝ × ℝ :=
  let rp : ℚ := (r : ℚ) / 255
  let gp : ℚ := (g : ℚ) / 255
  let bp : ℚ := (b : ℚ) / 255
  let max_val := max rp (max gp bp)
  if max_val = 0 then (0, 0)
  else
    let hs := hue_sat r g b
    let angle_rad : ℝ := ((hs.1 : ℝ)) * Real.pi / 180
    (((hs.2 : ℝ)) * Real.cos angle_rad, ((hs.2 : ℝ)) * Real.sin angle_rad)

/-- `calculate_color_temperature` with its two ratio divisions replaced by
zero-checked divisions. -/
def calculate_color_temperature_checked (r g b : ℕ) : Option String :=
  let rp : ℚ := (r : ℚ) / 255
  let gp : ℚ := (g : ℚ) / 255
  let bp : ℚ := (b : ℚ) / 255
  if max rp (max gp bp) < 0.1 then some ("neutral")
  else
    let ratiosOpt : Option (ℚ × ℚ) :=
      if rp > 0 ∧ bp > 0 then pairOpt (guardedDiv rp bp) (guardedDiv bp rp)
      else some (if rp > 0 then 10 else 0, if bp > 0 then 10 else 0)
    ratiosOpt.map (fun p => temp_decision rp gp bp p.1 p.2)

/-- Helper: the normalized channels are nonnegative. -/
theorem q255_nonneg (n : ℕ) : 0 ≤ (n : ℚ) / 255 :=
  div_nonneg (Nat.cast_nonneg n) (by norm_num)

/-- Helper: normalization by 255 is injective on channel values. -/
theorem q255_inj {m n : ℕ} (h : (m : ℚ) / 255 = (n : ℚ) / 255) : m = n := by
  field_simp at h
  exact_mod_cast h

/-- Helper: a three-way max equal to the three-way min forces all three
values equal. -/
theorem eq_of_max_eq_min {x y z : ℚ} (h : max x (max y z) = min x (min y z)) :
    x = y ∧ y = z := by
  have hx1 : x ≤ max x (max y z) := le_max_left _ _
  have hy1 : y ≤ max x (max y z) := le_trans (le_max_left _ _) (le_max_right _ _)
  have hx2 : min x (min y z) ≤ x := min_le_left _ _
  have hy2 : min x (min y z) ≤ y := le_trans (min_le_right _ _) (min_le_left _ _)
  have hz1 : z ≤ max x (max y z) := le_trans (le_max_right _ _) (le_max_right _ _)
  have hz2 : min x (min y z) ≤ z := le_trans (min_le_right _ _) (min_le_right _ _)
  constructor <;> [linarith; linarith]

/-- Helper: the saturation computed by `hue_sat` is nonnegative. -/
theorem hue_sat_sat_nonneg (r g b : ℕ) : 0 ≤ (hue_sat r g b).2 := by
  simp only [hue_sat]
  split_ifs with hm
  · exact le_refl 0
  · apply div_nonneg
    · have h : min ((r : ℚ) / 255) (min ((g : ℚ) / 255) ((b : ℚ) / 255)) ≤
          max ((r : ℚ) / 255) (max ((g : ℚ) / 255) ((b : ℚ) / 255)) :=
        le_trans (min_le_left _ _) (le_max_left _ _)
      linarith
    · exact le_trans (q255_nonneg r) (le_max_left _ _)

/-- Helper: the saturation computed by `hue_sat` is at most 1. -/
theorem hue_sat_sat_le_one (r g b : ℕ) : (hue_sat r g b).2 ≤ 1 := by
  simp only [hue_sat]
  split_ifs with hm
  · norm_num
  · have hmax0 : 0 ≤ max ((r : ℚ) / 255) (max ((g : ℚ) / 255) ((b : ℚ) / 255)) :=
      le_trans (q255_nonneg r) (le_max_left _ _)
    have hmaxpos : 0 < max ((r : ℚ) / 255) (max ((g : ℚ) / 255) ((b : ℚ) / 255)) :=
      lt_of_le_of_ne hmax0 (Ne.symm hm)
    rw [div_le_one hmaxpos]
    have hmin0 : 0 ≤ min ((r : ℚ) / 255) (min ((g : ℚ) / 255) ((b : ℚ) / 255)) :=
      le_min (q255_nonneg r) (le_min (q255_nonneg g) (q255_nonneg b))
    linarith

/-- Helper: the saturation is zero exactly for the achromatic colors. -/
theorem hue_sat_sat_eq_zero_iff (r g b : ℕ) :
    (hue_sat r g b).2 = 0 ↔ r = g ∧ g = b := by
  simp only [hue_sat]
  split_ifs with hm
  · constructor
    · intro _
      have hr0 : (r : ℚ) / 255 = 0 :=
        le_antisymm (hm ▸ le_max_left _ _) (q255_nonneg r)
      have hg0 : (g : ℚ) / 255 = 0 :=
        le_antisymm (hm ▸ le_trans (le_max_left _ _) (le_max_right _ _)) (q255_nonneg g)
      have hb0 : (b : ℚ) / 255 = 0 :=
        le_antisymm (hm ▸ le_trans (le_max_right _ _) (le_max_right _ _)) (q255_nonneg b)
      have h1 : r = g := q255_inj (hr0.trans hg0.symm)
      have h2 : g = b := q255_inj (hg0.trans hb0.symm)
      exact ⟨h1, h2⟩
    · intro _
      rfl
  · rw [div_eq_zero_iff]
    constructor
    · rintro (hd | hmax)
      · have heq := sub_eq_zero.mp hd
        obtain ⟨h1, h2⟩ := eq_of_max_eq_min heq
        exact ⟨q255_inj h1, q255_inj h2⟩
      · exact absurd hmax hm
    · rintro ⟨rfl, rfl⟩
      left
      simp

/-- Claim C8: neither the wheel mapper's divisions (delta/max and the hue
divisions by delta) nor the temperature classifier's ratio divisions can be
reached with a zero denominator: the zero-checked variants always return a
value, and it is the value of the unchecked functions. -/
theorem claim_C8_no_division_by_zero :
    ∀ r g b : ℕ,
      hue_sat_checked r g b = some (hue_sat r g b) ∧
      calculate_color_temperature_checked r g b = some (calculate_color_temperature r g b) := by
  intro r g b
  constructor
  · simp only [hue_sat_checked, hue_sat, guardedDiv]
    split_ifs <;> rfl
  · simp only [calculate_color_temperature_checked, calculate_color_temperature]
    by_cases h01 : max ((r : ℚ) / 255) (max ((g : ℚ) / 255) ((b : ℚ) / 255)) < 0.1
    · simp only [if_pos h01]
    · simp only [if_neg h01]
      by_cases hc : ((r : ℚ) / 255) > 0 ∧ ((b : ℚ) / 255) > 0
      · have hrne : ¬((r : ℚ) / 255 = 0) := ne_of_gt hc.1
        have hbne : ¬((b : ℚ) / 255 = 0) := ne_of_gt hc.2
        simp only [if_pos hc, guardedDiv, if_neg hrne, if_neg hbne, pairOpt]
        rfl
      · simp only [if_neg hc]
        rfl

/-- Counterexample to claim C5: the gray color (100,100,100) has positive
maximum channel yet maps to the wheel's center, because its delta (and so
its saturation) is zero — (0,0) is not reserved for black alone. -/
theorem claim_C5_counterexample :
    0 < max 100 (max 100 100) ∧
    get_color_wheel_position 100 100 100 = (0, 0) := by
  refine ⟨by decide, ?_⟩
  have hs0 : (hue_sat 100 100 100).2 = 0 :=
    (hue_sat_sat_eq_zero_iff 100 100 100).mpr ⟨rfl, rfl⟩
  norm_num [get_color_wheel_position, hs0]

/-- Claim C5 as amended: the wheel mapper sends black to the origin, and
the origin is hit exactly by the achromatic inputs r = g = b (for any such
gray the saturation delta/max is zero), not only by black. -/
theorem claim_C5_amended_origin_iff_achromatic :
    ∀ r g b : ℕ,
      (max r (max g b) = 0 → get_color_wheel_position r g b = (0, 0)) ∧
      (get_color_wheel_position r g b = (0, 0) ↔ r = g ∧ g = b) := by
  intro r g b
  have hforward : ∀ r' g' b' : ℕ, r' = g' → g' = b' →
      get_color_wheel_position r' g' b' = (0, 0) := by
    rintro x y z rfl rfl
    by_cases hx : x = 0
    · subst hx
      norm_num [get_color_wheel_position]
    · have hpos : (0 : ℚ) < (x : ℚ) / 255 :=
        div_pos (by exact_mod_cast Nat.pos_of_ne_zero hx) (by norm_num)
      have hm : max ((x : ℚ) / 255) (max ((x : ℚ) / 255) ((x : ℚ) / 255)) ≠ 0 :=
        (lt_of_lt_of_le hpos (le_max_left _ _)).ne'
      have hs0 : (hue_sat x x x).2 = 0 :=
        (hue_sat_sat_eq_zero_iff x x x).mpr ⟨rfl, rfl⟩
      simp only [get_color_wheel_position, if_neg hm]
      simp [hs0]
  constructor
  · intro h0
    have h : r = 0 ∧ g = 0 ∧ b = 0 := by omega
    obtain ⟨rfl, rfl, rfl⟩ := h
    norm_num [get_color_wheel_position]
  · constructor
    · intro h
      by_contra hne
      have hm : max ((r : ℚ) / 255) (max ((g : ℚ) / 255) ((b : ℚ) / 255)) ≠ 0 := by
        intro hm0
        have hr0 : (r : ℚ) / 255 = 0 :=
          le_antisymm (hm0 ▸ le_max_left _ _) (q255_nonneg r)
        have hg0 : (g : ℚ) / 255 = 0 :=
          le_antisymm (hm0 ▸ le_trans (le_max_left _ _) (le_max_right _ _)) (q255_nonneg g)
        have hb0 : (b : ℚ) / 255 = 0 :=
          le_antisymm (hm0 ▸ le_trans (le_max_right _ _) (le_max_right _ _)) (q255_nonneg b)
        exact hne ⟨q255_inj (hr0.trans hg0.symm), q255_inj (hg0.trans hb0.symm)⟩
      have hsat : (hue_sat r g b).2 ≠ 0 := by
        rw [Ne, hue_sat_sat_eq_zero_iff]
        exact hne
      have hsatR : (((hue_sat r g b).2 : ℝ)) ≠ 0 := by exact_mod_cast hsat
      simp only [get_color_wheel_position, if_neg hm] at h
      rw [Prod.ext_iff] at h
      obtain ⟨hx, hy⟩ := h
      have hcos : Real.cos (((hue_sat r g b).1 : ℝ) * Real.pi / 180) = 0 := by
        rcases mul_eq_zero.mp hx with h' | h'
        · exact absurd h' hsatR
        · exact h'
      have hsin : Real.sin (((hue_sat r g b).1 : ℝ) * Real.pi / 180) = 0 := by
        rcases mul_eq_zero.mp hy with h' | h'
        · exact absurd h' hsatR
        · exact h'
      have hone := Real.sin_sq_add_cos_sq (((hue_sat r g b).1 : ℝ) * Real.pi / 180)
      rw [hcos, hsin] at hone
      norm_num at hone
    · rintro ⟨h1, h2⟩
      exact hforward r g b h1 h2

/-- Witness for the amended C5's black conjunct at (0,0,0). -/
theorem claim_C5_amended_witness :
    max 0 (max 0 0) = 0 ∧ get_color_wheel_position 0 0 0 = (0, 0) :=
  ⟨by decide, (claim_C5_amended_origin_iff_achromatic 0 0 0).1 (by decide)⟩

/-- Claim C9: both wheel coordinates always lie in [-1,1]; black maps to
the origin; and the fully saturated primary (255,0,0) has saturation 1 and
lands on the unit circle (at the point (1,0)). -/
theorem claim_C9_wheel_in_unit_square :
    (∀ r g b : ℕ,
      -1 ≤ (get_color_wheel_position r g b).1 ∧ (get_color_wheel_position r g b).1 ≤ 1 ∧
      -1 ≤ (get_color_wheel_position r g b).2 ∧ (get_color_wheel_position r g b).2 ≤ 1) ∧
    get_color_wheel_position 0 0 0 = (0, 0) ∧
    (hue_sat 255 0 0).2 = 1 ∧
    get_color_wheel_position 255 0 0 = (1, 0) ∧
    (get_color_wheel_position 255 0 0).1 ^ 2 + (get_color_wheel_position 255 0 0).2 ^ 2 = 1 := by
  have hpair : get_color_wheel_position 255 0 0 = (1, 0) := by
    have h1 : hue_sat 255 0 0 = (0, 1) := by
      norm_num [hue_sat, fmodQ]
    norm_num [get_color_wheel_position, h1, Real.cos_zero, Real.sin_zero]
  refine ⟨fun r g b => ?_, ?_, ?_, hpair, by rw [hpair]; norm_num⟩
  · by_cases hm : max ((r : ℚ) / 255) (max ((g : ℚ) / 255) ((b : ℚ) / 255)) = 0
    · simp only [get_color_wheel_position, if_pos hm]
      norm_num
    · simp only [get_color_wheel_position, if_neg hm]
      have h0 : (0 : ℝ) ≤ ((hue_sat r g b).2 : ℝ) := by
        exact_mod_cast hue_sat_sat_nonneg r g b
      have h1 : (((hue_sat r g b).2 : ℝ)) ≤ 1 := by
        exact_mod_cast hue_sat_sat_le_one r g b
      have hcos1 := Real.cos_le_one (((hue_sat r g b).1 : ℝ) * Real.pi / 180)
      have hcos2 := Real.neg_one_le_cos (((hue_sat r g b).1 : ℝ) * Real.pi / 180)
      have hsin1 := Real.sin_le_one (((hue_sat r g b).1 : ℝ) * Real.pi / 180)
      have hsin2 := Real.neg_one_le_sin (((hue_sat r g b).1 : ℝ) * Real.pi / 180)
      refine ⟨?_, ?_, ?_, ?_⟩ <;> nlinarith
  · norm_num [get_color_wheel_position]
  · norm_num [hue_sat]

end DMXColors
